/-
  Verification of the travel-planning workflow engine
  (shallow embedding of src/graph.py, src/node.py, src/tool.py,
   src/persistence.py, src/database.py).

  Conventions of the embedding:
  * Python dicts with a fixed key set are Lean structures; `dict.get(k, d)`
    on a possibly-missing sub-dict is `Option` plus an explicit default.
  * Python numbers in the cost logic (ints and floats) are modelled as ℚ;
    `int(x)` (truncation toward zero) is `pyInt`.
  * Randomness and external calls (LLM, tool invocation, SQLite) are
    parameters of the embedded functions; an exception raised by an
    external call is an explicit `Except`/`Option` parameter.
  * Presentation text (console output, long AI-message bodies, suggestion
    strings) is abbreviated to short stand-in strings: no claim inspects it.
-/
import Mathlib

namespace TravelPlanner

/-! ## Messages (langchain message objects and their serialized form) -/

/-- A langchain message object held in `state["messages"]`.
`other` covers the remaining `BaseMessage` subclasses (tool-, system-messages),
carrying the Python class name. -/
inductive PyMessage : Type
  | human (content : String)
  | ai (content : String)
  | other (cls : String) (content : String)
  deriving Repr, DecidableEq

/-- The serialized form written by `TravelDatabase.save_travel_state`:
`{'type': msg.__class__.__name__, 'content': msg.content}`. -/
structure SerializedMessage where
  mtype : String
  content : String
  deriving Repr, DecidableEq

/-! ## Domain data carried in the state -/

/-- `flight_info` result dict. The error patch produced by
`node_query_flights` is `{"error": str(e), "price": 0}`. -/
structure FlightInfo where
  price : ℤ := 0
  airlines : List String := []
  destination : String := ""
  error : Option String := none
  deriving Repr, DecidableEq

/-- `hotel_info` result dict. The error patch produced by
`node_query_hotels` is `{"error": str(e), "total_price": 0}`. -/
structure HotelInfo where
  price_per_night : ℤ := 0
  total_price : ℤ := 0
  nights : ℤ := 0
  recommended : String := ""
  destination : String := ""
  error : Option String := none
  deriving Repr, DecidableEq

/-- `attractions_info` result dict. The error patch produced by
`node_query_attractions` is `{"error": str(e), "attractions": []}`. -/
structure AttractionsInfo where
  attractions : List String := []
  daily_plans : List String := []
  features : List String := []
  destination : String := ""
  error : Option String := none
  deriving Repr, DecidableEq

/-- `query_results` as assembled by `node_aggregate_parallel_results`:
`{"flight": .., "hotel": .., "attractions": ..}`; a missing branch key
defaults to the empty dict (all-default record). -/
structure QueryResults where
  flight : FlightInfo := {}
  hotel : HotelInfo := {}
  attractions : AttractionsInfo := {}
  deriving Repr, DecidableEq

/-- The `human_adjustment` dict attached to `cost_analysis` by the accept
branch of `node_human_intervention` (text fields abbreviated). -/
structure HumanAdjustment where
  adjusted_total : ℚ
  reduction_rate : ℚ
  deriving Repr, DecidableEq

/-- `cost_analysis["cost_breakdown"]`: the four fixed keys written by the
first-entry evaluation in `node_budget_optimization`
(机票 / 酒店 / 每日开销 / 其他费用). -/
structure CostBreakdown where
  flight : ℚ := 0
  hotel : ℚ := 0
  daily : ℚ := 0
  other : ℚ := 0
  deriving Repr, DecidableEq

/-- `cost_analysis` dict. -/
structure CostAnalysis where
  total_cost : ℚ := 0
  budget : ℚ := 0
  is_over_budget : Bool := false
  budget_remaining : ℚ := 0
  cost_breakdown : CostBreakdown := {}
  human_adjustment : Option HumanAdjustment := none
  deriving Repr, DecidableEq

/-- `travel_info` dict. `luxury_requirements` is the outcome of the
substring scan `any(req in str(requirements) for req in
["豪华","五星级","头等舱","奢华"])` performed by `node_budget_optimization`. -/
structure TravelInfo where
  destination : String := "云南"
  days : ℤ := 5
  budget : ℚ := 5000
  travelers : String := "2人"
  luxury_requirements : Bool := false
  deriving Repr, DecidableEq

/-- The `_control` dict. Each field's default value is the default used at
the code's `control.get(key, default)` read sites, so an absent key and a
key holding the default are identified. `over_budget_accepted` is a key
that no handler in the source ever writes; it is carried through record
updates unchanged. -/
structure Control where
  interactive_mode : Bool := true
  validation_completed : Bool := false
  budget_optimization_attempts : ℕ := 0
  budget_satisfied : Bool := false
  optimized_cost : ℚ := 0
  needs_human_intervention : Bool := false
  itinerary_optimization_attempts : ℕ := 0
  itinerary_satisfied : Bool := false
  itinerary_score : ℚ := 0
  user_confirmed : Bool := false
  user_choice : String := "accept"
  waiting_confirmation : Bool := false
  suggestions : List String := []
  overspend : ℚ := 0
  overspend_ratio : ℚ := 0
  optimization_applied : Bool := false
  human_intervention_completed : Bool := false
  planning_terminated : Bool := false
  over_budget_accepted : Bool := false
  deriving Repr, DecidableEq

/-- `TravelState` (node.py), polymorphic in the message representation so
that the in-memory state (`PyMessage`) and the persisted snapshot
(`SerializedMessage`) share one shape. `control` embeds `_control`. -/
structure TravelStateOf (μ : Type) where
  messages : List μ := []
  input : String := ""
  travel_info : Option TravelInfo := none
  query_results : Option QueryResults := none
  cost_analysis : Option CostAnalysis := none
  itinerary : Option String := none
  status : String := ""
  control : Control := {}
  flight_info : Option FlightInfo := none
  hotel_info : Option HotelInfo := none
  attractions_info : Option AttractionsInfo := none
  deriving Repr, DecidableEq

/-- In-memory execution state. -/
abbrev TravelState := TravelStateOf PyMessage

/-- Snapshot shape stored in the `travel_states` table. -/
abbrev StoredState := TravelStateOf SerializedMessage

/-- LangGraph's terminal sentinel `END` (`langgraph.graph.END`). -/
def END : String := "__end__"

/-! ## Conditional routers (graph.py) -/

/-- `budget_satisfaction_router` (graph.py lines 156-183).
Reads `cost_analysis.get("is_over_budget", False)` with the dict
defaulting to empty when the state key is absent. -/
def budget_satisfaction_router (state : TravelState) : String :=
  let control := state.control
  let budget_attempts := control.budget_optimization_attempts
  let budget_satisfied := control.budget_satisfied
  let needs_human_intervention := control.needs_human_intervention
  let is_over_budget := ((state.cost_analysis.map CostAnalysis.is_over_budget).getD false)
  if budget_satisfied then "itinerary_optimization"
  else if needs_human_intervention || (decide (3 ≤ budget_attempts) && is_over_budget) then
    "human_intervention"
  else if 3 ≤ budget_attempts then "itinerary_optimization"
  else "budget_optimization"

/-- `itinerary_satisfaction_router` (graph.py lines 197-224). -/
def itinerary_satisfaction_router (state : TravelState) : String :=
  let control := state.control
  let itinerary_attempts := control.itinerary_optimization_attempts
  let itinerary_satisfied := control.itinerary_satisfied
  let itinerary_score := control.itinerary_score
  let is_over_budget := ((state.cost_analysis.map CostAnalysis.is_over_budget).getD false)
  if itinerary_satisfied then "generate_itinerary"
  else if decide (3 ≤ itinerary_attempts) && (decide (itinerary_score < 7/10) || is_over_budget) then
    "human_intervention"
  else if 3 ≤ itinerary_attempts then "generate_itinerary"
  else "itinerary_optimization"

/-- `human_intervention_router` (graph.py lines 238-259). -/
def human_intervention_router (state : TravelState) : String :=
  if state.status = "waiting_confirmation" then END
  else if state.status = "terminated" then END
  else if state.control.human_intervention_completed then "generate_itinerary"
  else "human_intervention"

/-! ## Loop work nodes (node.py) -/

/-- Python `int(x)`: truncation toward zero. -/
def pyInt (q : ℚ) : ℤ := if 0 ≤ q then ⌊q⌋ else ⌈q⌉

/-- `get_daily_expense` (common.py lines 135-148). -/
def get_daily_expense (destination : String) : ℚ :=
  if destination = "云南" then 300
  else if destination = "北京" then 350
  else if destination = "上海" then 400
  else if destination = "三亚" then 450
  else if destination = "西安" then 250
  else if destination = "欧洲" then 800
  else if destination = "日本" then 600
  else if destination = "韩国" then 500
  else if destination = "新加坡" then 700
  else 300

/-- The first-entry budget evaluation block of `node_budget_optimization`
(node.py lines 1297-1334): builds `cost_analysis` from the parallel query
results and per-day expense estimate. -/
def evalBudget (state : TravelState) : CostAnalysis :=
  let qr := state.query_results.getD {}
  let flight_cost : ℚ := (qr.flight.price : ℚ)
  let hotel_cost : ℚ := (qr.hotel.total_price : ℚ)
  let days : ℤ := (state.travel_info.map TravelInfo.days).getD 5
  let destination := (state.travel_info.map TravelInfo.destination).getD "云南"
  let budget : ℚ := (state.travel_info.map TravelInfo.budget).getD 5000
  let daily_cost := get_daily_expense destination
  let total_daily_cost := daily_cost * (days : ℚ)
  let other_costs : ℚ := 500
  let total_cost := flight_cost + hotel_cost + total_daily_cost + other_costs
  { total_cost := total_cost
    budget := budget
    is_over_budget := decide (budget < total_cost)
    budget_remaining := budget - total_cost
    cost_breakdown :=
      { flight := flight_cost, hotel := hotel_cost
        daily := total_daily_cost, other := other_costs } }

/-- The optimization part of `node_budget_optimization`
(node.py lines 1346-1474), entered with a non-empty `cost_analysis`. -/
def budget_opt_core (state : TravelState) (control : Control) (attempts : ℕ)
    (cost_analysis : CostAnalysis) : TravelState :=
  let total_cost := cost_analysis.total_cost
  let budget : ℚ := (state.travel_info.map TravelInfo.budget).getD 0
  let over_amount := total_cost - budget
  let has_luxury := (state.travel_info.map TravelInfo.luxury_requirements).getD false
  -- strategy savings: 0.15+0.10+0.05 of the overspend under the luxury cap,
  -- otherwise 0.4+0.3+0.3 of the overspend
  let total_savings : ℚ :=
    if has_luxury && decide (budget * (5/10) < over_amount) then
      over_amount * (15/100) + over_amount * (10/100) + over_amount * (5/100)
    else
      over_amount * (4/10) + over_amount * (3/10) + over_amount * (3/10)
  let optimized_cost := total_cost - total_savings
  if budget * 5 < total_cost then
    -- budget severely insufficient: flag for human intervention, keep the
    -- original cost analysis; neither attempts nor budget_satisfied is written
    { state with
      control := { control with needs_human_intervention := true }
      cost_analysis := some cost_analysis }
  else
    let budget_satisfied := decide (optimized_cost ≤ budget)
    let control₁ :=
      if !budget_satisfied && has_luxury && decide (2 ≤ attempts) && decide (3 ≤ attempts) then
        { control with needs_human_intervention := true }
      else control
    let control₂ :=
      { control₁ with
        budget_optimization_attempts := attempts
        budget_satisfied := budget_satisfied
        optimized_cost := optimized_cost }
    let updated₀ :=
      { cost_analysis with
        total_cost := optimized_cost
        is_over_budget := !budget_satisfied
        budget_remaining := budget - optimized_cost }
    if 0 < total_cost then
      let reduction_rate := total_savings / total_cost
      -- int(original*(1-rate)) clamped below by the per-item minimum
      let reduce := fun (orig min_cost : ℚ) =>
        max ((pyInt (orig * (1 - reduction_rate)) : ℚ)) min_cost
      let bd := cost_analysis.cost_breakdown
      let newbd : CostBreakdown :=
        { flight := reduce bd.flight 300
          hotel := reduce bd.hotel 100
          daily := reduce bd.daily 80
          other := reduce bd.other 50 }
      let actual_optimized_cost := newbd.flight + newbd.hotel + newbd.daily + newbd.other
      let updated :=
        { updated₀ with
          total_cost := actual_optimized_cost
          cost_breakdown := newbd
          budget_remaining := budget - actual_optimized_cost }
      let control₃ :=
        if budget * 2 < actual_optimized_cost then
          { control₂ with needs_human_intervention := true }
        else control₂
      { state with control := control₃, cost_analysis := some updated }
    else
      { state with control := control₂, cost_analysis := some updated₀ }

/-- `node_budget_optimization` (node.py lines 1286-1474). -/
def node_budget_optimization (state : TravelState) : TravelState :=
  let control := state.control
  let attempts := control.budget_optimization_attempts + 1
  match state.cost_analysis with
  | none =>
      let cost_analysis := evalBudget state
      if cost_analysis.is_over_budget then
        budget_opt_core state control attempts cost_analysis
      else
        -- first entry and within budget: mark satisfied immediately
        { state with
          cost_analysis := some cost_analysis
          control := { control with
            budget_satisfied := true
            budget_optimization_attempts := attempts } }
  | some cost_analysis => budget_opt_core state control attempts cost_analysis

/-- `node_check_budget_satisfaction` (node.py lines 1477-1502): prints the
loop status and returns the state unchanged. -/
def node_check_budget_satisfaction (state : TravelState) : TravelState := state

/-- `node_itinerary_optimization` (node.py lines 1509-1558). -/
def node_itinerary_optimization (state : TravelState) : TravelState :=
  let control := state.control
  let attempts := control.itinerary_optimization_attempts + 1
  let base_score : ℚ := 6/10
  let improvement_per_attempt : ℚ := 15/100
  let current_score := min (95/100) (base_score + (attempts : ℚ) * improvement_per_attempt)
  let itinerary_satisfied := decide ((85/100 : ℚ) ≤ current_score)
  { state with
    control := { control with
      itinerary_optimization_attempts := attempts
      itinerary_satisfied := itinerary_satisfied
      itinerary_score := current_score } }

/-- `node_check_itinerary_satisfaction` (node.py lines 1561-1587): prints
the loop status and returns the state unchanged. -/
def node_check_itinerary_satisfaction (state : TravelState) : TravelState := state

/-! ## Human-intervention node (node.py lines 831-1024) -/

/-- `node_human_intervention`. The cost fields are read with
`cost_analysis.get(key, 0)` on the (possibly empty) dict; in non-interactive
mode the node auto-confirms with `user_choice = "accept"`. AI-message
bodies and suggestion strings are abbreviated. -/
def node_human_intervention (state : TravelState) : TravelState :=
  let cost_analysis := state.cost_analysis.getD {}
  let total_cost := cost_analysis.total_cost
  let budget := cost_analysis.budget
  let control₀ := state.control
  let control :=
    if !control₀.interactive_mode then
      { control₀ with user_confirmed := true, user_choice := "accept" }
    else control₀
  if control.user_confirmed then
    if control.user_choice = "accept" then
      let overspend := total_cost - budget
      let overspend_ratio := overspend / budget
      let reduction_rate : ℚ :=
        if (3/10 : ℚ) < overspend_ratio then 25/100
        else if (2/10 : ℚ) < overspend_ratio then 20/100
        else 15/100
      let adjusted_total := total_cost * (1 - reduction_rate)
      let human_adjustment : HumanAdjustment :=
        { adjusted_total := adjusted_total, reduction_rate := reduction_rate }
      let updated_cost_analysis :=
        { cost_analysis with
          total_cost := adjusted_total
          is_over_budget := decide (budget < adjusted_total)
          human_adjustment := some human_adjustment }
      { state with
        cost_analysis := some updated_cost_analysis
        status := "planning"
        control := { control with
          optimization_applied := true
          human_intervention_completed := true }
        messages := state.messages ++ [PyMessage.ai "已应用优化方案"] }
    else if control.user_choice = "reject" then
      { state with
        status := "terminated"
        control := { control with
          human_intervention_completed := true
          planning_terminated := true }
        messages := state.messages ++ [PyMessage.ai "已终止旅游规划"] }
    else
      -- any other confirmed choice keeps the original plan
      { state with
        status := "planning"
        control := { control with
          optimization_applied := true
          human_intervention_completed := true }
        messages := state.messages ++ [PyMessage.ai "已保持原方案，继续规划"] }
  else
    -- first entry: emit suggestions and suspend awaiting confirmation
    let overspend := total_cost - budget
    let overspend_ratio := overspend / budget
    let suggestions : List String :=
      if (3/10 : ℚ) < overspend_ratio then
        ["当前超支提示", "建议：调整目的地或缩短行程天数", "预计可节省：25%费用"]
      else if (2/10 : ℚ) < overspend_ratio then
        ["当前超支提示", "建议：选择经济型酒店", "建议：调整航班时间", "预计可节省：20%费用"]
      else
        ["当前超支提示", "建议：减少购物预算或选择部分免费景点", "预计可节省：15%费用"]
    { state with
      status := "waiting_confirmation"
      control := { control with
        waiting_confirmation := true
        suggestions := suggestions
        overspend := overspend
        overspend_ratio := overspend_ratio }
      messages := state.messages ++ [PyMessage.ai "预算超支提醒，请选择您的决策"] }

/-! ## Parallel fan-out branch nodes and the state merge (node.py 457-667) -/

/-- The patch dict returned by a fan-out branch node: it may carry any
subset of the three branch keys (a returned dict key is `some`). -/
structure QueryPatch where
  flight_info : Option FlightInfo := none
  hotel_info : Option HotelInfo := none
  attractions_info : Option AttractionsInfo := none
  deriving Repr, DecidableEq

/-- LangGraph's per-key merge of a returned patch into the shared state:
keys present in the patch overwrite, absent keys leave the state alone. -/
def applyPatch (state : TravelState) (p : QueryPatch) : TravelState :=
  { state with
    flight_info := match p.flight_info with | some v => some v | none => state.flight_info
    hotel_info := match p.hotel_info with | some v => some v | none => state.hotel_info
    attractions_info :=
      match p.attractions_info with | some v => some v | none => state.attractions_info }

/-- Merging the patches of a completion order (a list of patches in the
order in which the branches reported). -/
def applyPatches (state : TravelState) (ps : List QueryPatch) : TravelState :=
  ps.foldl applyPatch state

/-- `node_query_flights` (node.py lines 457-510). The tool invocation and
JSON parsing happen inside the `try` block; their outcome (a result or a
raised exception) is the `result` parameter. The state argument only feeds
the tool's query parameters. -/
def node_query_flights (_state : TravelState) (result : Except String FlightInfo) :
    QueryPatch :=
  match result with
  | .ok r => { flight_info := some r }
  | .error e => { flight_info := some { price := 0, error := some e } }

/-- `node_query_hotels` (node.py lines 512-567). -/
def node_query_hotels (_state : TravelState) (result : Except String HotelInfo) :
    QueryPatch :=
  match result with
  | .ok r => { hotel_info := some r }
  | .error e => { hotel_info := some { total_price := 0, error := some e } }

/-- `node_query_attractions` (node.py lines 569-621). -/
def node_query_attractions (_state : TravelState) (result : Except String AttractionsInfo) :
    QueryPatch :=
  match result with
  | .ok r => { attractions_info := some r }
  | .error e => { attractions_info := some { attractions := [], error := some e } }

/-- `node_aggregate_parallel_results` (node.py lines 623-667): the join
node reads the three branch keys (each defaulting to the empty dict) and
assembles `query_results`. -/
def node_aggregate_parallel_results (state : TravelState) : TravelState :=
  let flight_info := state.flight_info.getD {}
  let hotel_info := state.hotel_info.getD {}
  let attractions_info := state.attractions_info.getD {}
  { state with
    query_results := some
      { flight := flight_info, hotel := hotel_info, attractions := attractions_info }
    messages := state.messages ++ [PyMessage.ai "并行查询完成"] }

/-! ## Hotel price tool (tool.py lines 52-92) -/

/-- The quote dict returned by `query_hotel_prices`. -/
structure HotelQuote where
  destination : String
  price_per_night : ℤ
  total_price : ℤ
  recommended : String
  nights : ℤ
  deriving Repr, DecidableEq

/-- Price adjustment for the party size: `int(p*1.3)` / `int(p*1.5)`
(float multiply-then-truncate modelled as exact integer scaling). The two
booleans are the outcomes of the substring tests on `travelers`
("3人"/"家庭" and "4人"/"5人" respectively, tested in that order). -/
def adjustTravelers (p : ℕ) (family3 party45 : Bool) : ℕ :=
  if family3 then (13 * p) / 10
  else if party45 then (15 * p) / 10
  else p

/-- One requirement string, characterized by the outcome of the substring
tests performed on it ("五星级"/"奢华" and "豪华"/"四星级"). -/
inductive ReqKind : Type
  | fivestar
  | luxury
  | plain
  deriving Repr, DecidableEq

/-- The requirements loop of `query_hotel_prices`: a five-star requirement
triples the price and breaks out of the loop; each luxury requirement
doubles it and the loop continues. -/
def adjustRequirements : ℕ → List ReqKind → ℕ
  | p, [] => p
  | p, .fivestar :: _ => 3 * p
  | p, .luxury :: rest => adjustRequirements (2 * p) rest
  | p, .plain :: rest => adjustRequirements p rest

/-- `query_hotel_prices`. `base` stands for the sampled
`random.randint(min_price, max_price)`; `recommended` for the looked-up
hotel name. `days` is the caller-supplied integer, used as `days - 1`
nights with no validation. -/
def query_hotel_prices (destination : String) (days : ℤ) (base : ℕ)
    (family3 party45 : Bool) (reqs : List ReqKind) (recommended : String) : HotelQuote :=
  let price_per_night := adjustRequirements (adjustTravelers base family3 party45) reqs
  { destination := destination
    price_per_night := (price_per_night : ℤ)
    total_price := (price_per_night : ℤ) * (days - 1)
    recommended := recommended
    nights := days - 1 }

/-! ## Persistence layer (persistence.py, database.py) -/

/-- Serialization of a message performed by `save_travel_state`:
`msg.__class__.__name__` plus the content. -/
def serializeMessage : PyMessage → SerializedMessage
  | .human c => ⟨"HumanMessage", c⟩
  | .ai c => ⟨"AIMessage", c⟩
  | .other cls c => ⟨cls, c⟩

/-- Message restoration performed by `get_latest_state`: only
`HumanMessage` and `AIMessage` entries are rebuilt, every other stored
message is dropped. -/
def restoreMessage (m : SerializedMessage) : Option PyMessage :=
  if m.mtype = "HumanMessage" then some (.human m.content)
  else if m.mtype = "AIMessage" then some (.ai m.content)
  else none

/-- State serialization in `save_travel_state`: messages are replaced by
their serialized records, all other fields are JSON-dumped unchanged. -/
def serializeState (s : TravelState) : StoredState :=
  { s with messages := s.messages.map serializeMessage }

/-- State restoration in `get_latest_state`. -/
def restoreState (s : StoredState) : TravelState :=
  { s with messages := s.messages.filterMap restoreMessage }

/-- One row of the `travel_states` table
`(session_id, state_data, step_number, node_name)`; rows are listed in
insertion order (which matches `created_at` order). -/
structure StateRecord where
  session_id : String
  step_number : ℕ
  node_name : String
  state_data : StoredState
  deriving Repr, DecidableEq

/-- The `travel_states` table, in insertion order. -/
abbrev TravelDB := List StateRecord

/-- `TravelDatabase.save_travel_state` (database.py lines 142-173):
appends one row inside a try/except; an exception (`exc` parameter, raised
by serialization or the SQLite insert, which is transactional) is caught
and turned into a `False` return with the table unchanged. -/
def save_travel_state (exc : Option String) (db : TravelDB) (session_id : String)
    (state : TravelState) (step_number : ℕ) (node_name : String) : TravelDB × Bool :=
  match exc with
  | some _ => (db, false)
  | none => (db ++ [⟨session_id, step_number, node_name, serializeState state⟩], true)

/-- `PersistentTravelPlanner`: the session id plus the in-memory step
counter. -/
structure PersistentTravelPlanner where
  session_id : String
  step_counter : ℕ
  deriving Repr, DecidableEq

/-- `PersistentTravelPlanner.save_state` (persistence.py lines 30-53): the
counter is incremented first, then the snapshot is written; every
exception raised by the persistence calls is caught by the surrounding
try/except and the method returns normally (hence the plain, non-failing
result type). The auxiliary table writes (travel_info, cost_analysis,
message history) are not modelled; an exception raised by them is covered
by the same catch-all and leaves the states table as it stands. -/
def save_state (exc : Option String) (planner : PersistentTravelPlanner)
    (db : TravelDB) (state : TravelState) (node_name : String) :
    PersistentTravelPlanner × TravelDB :=
  let counter := planner.step_counter + 1
  let (db', _ok) := save_travel_state exc db planner.session_id state counter node_name
  ({ planner with step_counter := counter }, db')

/-- A sequence of `save_state` calls (each with its exception oracle,
state and node name) starting from a given planner and table. -/
def runSaves (planner : PersistentTravelPlanner) (db : TravelDB)
    (calls : List (Option String × TravelState × String)) :
    PersistentTravelPlanner × TravelDB :=
  calls.foldl
    (fun acc c => save_state c.1 acc.1 acc.2 c.2.1 c.2.2)
    (planner, db)

/-- The `ORDER BY step_number DESC, created_at DESC LIMIT 1` selection of
`get_latest_state`: the row with the greatest step number; among equal
step numbers the most recently inserted row wins. -/
def pickLatest (best : Option StateRecord) (r : StateRecord) : Option StateRecord :=
  match best with
  | none => some r
  | some b => if b.step_number ≤ r.step_number then some r else some b

/-- The result row of `TravelDatabase.get_latest_state`
(database.py lines 417-459), with the messages already restored. -/
structure LatestInfo where
  state_data : TravelState
  step_number : ℕ
  node_name : String
  deriving Repr, DecidableEq

/-- `TravelDatabase.get_latest_state`: select the session's rows, take the
one with the maximum step number, restore the message objects. -/
def get_latest_state (db : TravelDB) (session_id : String) : Option LatestInfo :=
  ((db.filter (fun r => r.session_id = session_id)).foldl pickLatest none).map
    (fun r =>
      { state_data := restoreState r.state_data
        step_number := r.step_number
        node_name := r.node_name })

/-- `resume_session` (persistence.py lines 265-290): build a planner for
the session; when a stored state exists, restore the step counter to its
step number and return the reconstructed state, otherwise return `none`. -/
def resume_session (db : TravelDB) (session_id : String) :
    PersistentTravelPlanner × Option TravelState :=
  let planner : PersistentTravelPlanner := ⟨session_id, 0⟩
  match get_latest_state db session_id with
  | some info => ({ planner with step_counter := info.step_number }, some info.state_data)
  | none => (planner, none)

/-! ## Example states and tables used by the witnesses -/

/-- A state with both loop counters at the bound, used to witness C1. -/
def exMaxAttempts : TravelState :=
  { status := "optimizing"
    control := { budget_optimization_attempts := 3, itinerary_optimization_attempts := 3 } }

/-- A state about to undergo its third (still unsatisfied) budget
optimization pass: luxury requirements cap the savings at 30% of the
overspend, so the pass leaves the plan over budget. -/
def exThirdPass : TravelState :=
  { status := "optimizing"
    travel_info := some
      { destination := "云南", days := 5, budget := 1000, travelers := "2人"
        luxury_requirements := true }
    cost_analysis := some
      { total_cost := 2000, budget := 1000, is_over_budget := true
        budget_remaining := -1000 }
    control := { budget_optimization_attempts := 2 } }

/-- A state with both satisfied flags set, used to witness C6. -/
def exSatisfied : TravelState :=
  { status := "optimizing"
    control := { budget_satisfied := true, itinerary_satisfied := true } }

/-- A suspended over-budget state whose confirmed decision value is the
literal string "terminate" (the decision vocabulary the claim assumes). -/
def exTerminateChoice : TravelState :=
  { status := "waiting_confirmation"
    cost_analysis := some { total_cost := 2000, budget := 1000, is_over_budget := true }
    control :=
      { user_confirmed := true, user_choice := "terminate", waiting_confirmation := true } }

/-- Shared cost analysis for the C5 witnesses: 50% overspend ratio. -/
def exCa : CostAnalysis := { total_cost := 1500, budget := 1000, is_over_budget := true }

/-- Confirmed accept decision. -/
def exAccept : TravelState :=
  { status := "waiting_confirmation", cost_analysis := some exCa
    control := { user_confirmed := true, user_choice := "accept" } }

/-- Confirmed keep decision. -/
def exKeep : TravelState :=
  { status := "waiting_confirmation", cost_analysis := some exCa
    control := { user_confirmed := true, user_choice := "keep" } }

/-- Confirmed terminating decision (encoded as "reject"). -/
def exReject : TravelState :=
  { status := "waiting_confirmation", cost_analysis := some exCa
    control := { user_confirmed := true, user_choice := "reject" } }

/-- The message classes that `get_latest_state` can reconstruct
(`HumanMessage` and `AIMessage`). -/
def isChatMessage : PyMessage → Prop
  | .human _ => True
  | .ai _ => True
  | .other _ _ => False

/-- Two stored rows for one session, used to witness C4. -/
def exDb : TravelDB :=
  [⟨"travel_x", 1, "step_1", { status := "planning" }⟩,
   ⟨"travel_x", 2, "final_result", { status := "completed" }⟩]

/-- A state whose messages are all reconstructible chat messages. -/
def exMsgState : TravelState :=
  { messages := [.human "我想去云南旅游", .ai "好的，正在规划"], status := "planning" }

/-! ## Theorems -/

/-- C1: For both bounded optimization loops (max attempts M = 3): in every
state whose attempt counter in `_control` is at least 3, the loop's router
returns an advance or escalate target ("itinerary_optimization" or
"human_intervention" for the budget loop, "generate_itinerary" or
"human_intervention" for the itinerary loop), never the continue-loop
target. -/
theorem routers_never_continue_at_max_attempts (s : TravelState) :
    (3 ≤ s.control.budget_optimization_attempts →
      budget_satisfaction_router s = "itinerary_optimization" ∨
      budget_satisfaction_router s = "human_intervention") ∧
    (3 ≤ s.control.itinerary_optimization_attempts →
      itinerary_satisfaction_router s = "generate_itinerary" ∨
      itinerary_satisfaction_router s = "human_intervention") := by
  constructor
  · intro h
    simp only [budget_satisfaction_router]
    split_ifs with h1 h2
    · exact Or.inl rfl
    · exact Or.inr rfl
    · exact Or.inl rfl
  · intro h
    simp only [itinerary_satisfaction_router]
    split_ifs with h1 h2
    · exact Or.inl rfl
    · exact Or.inr rfl
    · exact Or.inl rfl

/-- C1 witness: the router outcomes at a concrete state with both counters
at 3. -/
theorem routers_never_continue_at_max_attempts_witness :
    (budget_satisfaction_router exMaxAttempts = "itinerary_optimization" ∨
      budget_satisfaction_router exMaxAttempts = "human_intervention") ∧
    (itinerary_satisfaction_router exMaxAttempts = "generate_itinerary" ∨
      itinerary_satisfaction_router exMaxAttempts = "human_intervention") :=
  ⟨(routers_never_continue_at_max_attempts exMaxAttempts).1 (by decide),
   (routers_never_continue_at_max_attempts exMaxAttempts).2 (by decide)⟩

/-- The optimization core never decreases the budget attempt counter: it
either leaves it unchanged (severe-shortage early return) or writes the
incremented value. -/
lemma budget_opt_core_attempts (s : TravelState) (control : Control) (attempts : ℕ)
    (ca : CostAnalysis) :
    (budget_opt_core s control attempts ca).control.budget_optimization_attempts =
      control.budget_optimization_attempts ∨
    (budget_opt_core s control attempts ca).control.budget_optimization_attempts =
      attempts := by
  simp only [budget_opt_core]
  split_ifs <;> simp

/-- An optimization pass that leaves `budget_satisfied` false either set
the human-intervention flag or marked the cost analysis over budget. -/
lemma budget_opt_core_unsat_escalates (s : TravelState) (control : Control) (attempts : ℕ)
    (ca : CostAnalysis)
    (h : (budget_opt_core s control attempts ca).control.budget_satisfied = false) :
    (budget_opt_core s control attempts ca).control.needs_human_intervention = true ∨
    ((budget_opt_core s control attempts ca).cost_analysis.map
        CostAnalysis.is_over_budget).getD false = true := by
  simp only [budget_opt_core] at h ⊢
  split_ifs at h ⊢ <;> simp_all

/-- `node_budget_optimization` version of the escalation lemma. -/
lemma node_budget_opt_unsat_escalates (s : TravelState)
    (h : (node_budget_optimization s).control.budget_satisfied = false) :
    (node_budget_optimization s).control.needs_human_intervention = true ∨
    ((node_budget_optimization s).cost_analysis.map
        CostAnalysis.is_over_budget).getD false = true := by
  unfold node_budget_optimization at h ⊢
  cases hca : s.cost_analysis with
  | none =>
      rw [hca] at h
      dsimp only at h ⊢
      split_ifs at h ⊢ with hover
      exact budget_opt_core_unsat_escalates _ _ _ _ h
  | some ca =>
      rw [hca] at h
      dsimp only at h ⊢
      exact budget_opt_core_unsat_escalates _ _ _ _ h

/-- C2: any state produced by an unsatisfied optimization pass whose
attempt counter reached 3 (in particular, the state after 3 consecutive
unsatisfied passes) is routed to "human_intervention" by the next routing
decision (taken after the pass-through check node), never back to
"budget_optimization". -/
theorem third_unsatisfied_pass_escalates (s : TravelState)
    (h3 : (node_budget_optimization s).control.budget_optimization_attempts = 3)
    (hu : (node_budget_optimization s).control.budget_satisfied = false) :
    budget_satisfaction_router (node_check_budget_satisfaction (node_budget_optimization s)) =
      "human_intervention" := by
  rcases node_budget_opt_unsat_escalates s hu with hn | ho
  · simp [node_check_budget_satisfaction, budget_satisfaction_router, hu, hn]
  · simp [node_check_budget_satisfaction, budget_satisfaction_router, hu, ho, h3]

/-- C2 witness: the concrete third unsatisfied pass is routed to
"human_intervention". -/
theorem third_unsatisfied_pass_escalates_witness :
    (node_budget_optimization exThirdPass).control.budget_optimization_attempts = 3 ∧
    (node_budget_optimization exThirdPass).control.budget_satisfied = false ∧
    budget_satisfaction_router
      (node_check_budget_satisfaction (node_budget_optimization exThirdPass)) =
      "human_intervention" :=
  ⟨by norm_num [exThirdPass, node_budget_optimization, budget_opt_core, pyInt, max_def],
   by norm_num [exThirdPass, node_budget_optimization, budget_opt_core, pyInt, max_def],
   third_unsatisfied_pass_escalates exThirdPass
     (by norm_num [exThirdPass, node_budget_optimization, budget_opt_core, pyInt, max_def])
     (by norm_num [exThirdPass, node_budget_optimization, budget_opt_core, pyInt, max_def])⟩

/-- C6: the loop attempt counters in `_control` never decrease across a
work-node execution, and once a loop's satisfied flag is true its router
never returns the continue-loop target, so no re-execution of that loop
(which is reachable only through the continue-loop edge) can reset the
flag. -/
theorem attempt_counters_monotone_and_satisfied_exits (s : TravelState) :
    (s.control.budget_optimization_attempts ≤
      (node_budget_optimization s).control.budget_optimization_attempts) ∧
    (s.control.itinerary_optimization_attempts ≤
      (node_itinerary_optimization s).control.itinerary_optimization_attempts) ∧
    (s.control.budget_satisfied = true →
      budget_satisfaction_router s ≠ "budget_optimization") ∧
    (s.control.itinerary_satisfied = true →
      itinerary_satisfaction_router s ≠ "itinerary_optimization") := by
  refine ⟨?_, ?_, ?_, ?_⟩
  · unfold node_budget_optimization
    cases hca : s.cost_analysis with
    | none =>
        dsimp only
        split_ifs with hover
        · rcases budget_opt_core_attempts s s.control
            (s.control.budget_optimization_attempts + 1) (evalBudget s) with h | h <;>
            omega
        · simp
    | some ca =>
        dsimp only
        rcases budget_opt_core_attempts s s.control
          (s.control.budget_optimization_attempts + 1) ca with h | h <;> omega
  · simp [node_itinerary_optimization]
  · intro h
    simp [budget_satisfaction_router, h]
  · intro h
    simp [itinerary_satisfaction_router, h]

/-- C6 witness at a concrete satisfied state. -/
theorem attempt_counters_monotone_and_satisfied_exits_witness :
    (exSatisfied.control.budget_optimization_attempts ≤
      (node_budget_optimization exSatisfied).control.budget_optimization_attempts) ∧
    (exSatisfied.control.itinerary_optimization_attempts ≤
      (node_itinerary_optimization exSatisfied).control.itinerary_optimization_attempts) ∧
    budget_satisfaction_router exSatisfied ≠ "budget_optimization" ∧
    itinerary_satisfaction_router exSatisfied ≠ "itinerary_optimization" :=
  ⟨(attempt_counters_monotone_and_satisfied_exits exSatisfied).1,
   (attempt_counters_monotone_and_satisfied_exits exSatisfied).2.1,
   (attempt_counters_monotone_and_satisfied_exits exSatisfied).2.2.1 (by decide),
   (attempt_counters_monotone_and_satisfied_exits exSatisfied).2.2.2 (by decide)⟩

/-- C5 counterexample: a confirmed decision value "terminate" does not
terminate the run — `node_human_intervention` treats every confirmed
choice other than "accept" and "reject" as keep-as-is and advances with
status "planning"; moreover no over-budget-accepted flag is set. -/
theorem human_terminate_choice_counterexample :
    (node_human_intervention exTerminateChoice).status = "planning" ∧
    (node_human_intervention exTerminateChoice).status ≠ "terminated" ∧
    (node_human_intervention exTerminateChoice).control.over_budget_accepted = false := by
  refine ⟨?_, ?_, ?_⟩ <;> simp [exTerminateChoice, node_human_intervention]

/-- C5 (amended): on a confirmed decision over a present cost analysis
with a positive budget, `accept` scales `total_cost` by the computed
reduction rate (25% when the overspend ratio exceeds 0.3, else 20% when it
exceeds 0.2, else 15%) and advances to "planning"; `keep` advances to
"planning" with the cost analysis unchanged and no dedicated
over-budget-accepted flag (only `human_intervention_completed` and
`optimization_applied`); the terminating decision is encoded as
`user_choice = "reject"`, which sets the terminal status "terminated",
after which `human_intervention_router` returns the END sentinel. -/
theorem human_decision_transform (s : TravelState) (ca : CostAnalysis)
    (hca : s.cost_analysis = some ca)
    (hb : 0 < ca.budget)
    (hint : s.control.interactive_mode = true)
    (hconf : s.control.user_confirmed = true) :
    (s.control.user_choice = "accept" →
      (node_human_intervention s).cost_analysis.map CostAnalysis.total_cost =
        some (ca.total_cost *
          (1 - (if (3/10 : ℚ) < (ca.total_cost - ca.budget) / ca.budget then 25/100
                else if (2/10 : ℚ) < (ca.total_cost - ca.budget) / ca.budget then 20/100
                else 15/100))) ∧
      (node_human_intervention s).status = "planning" ∧
      (node_human_intervention s).control.human_intervention_completed = true) ∧
    (s.control.user_choice = "keep" →
      (node_human_intervention s).cost_analysis = s.cost_analysis ∧
      (node_human_intervention s).status = "planning" ∧
      (node_human_intervention s).control.human_intervention_completed = true ∧
      (node_human_intervention s).control.optimization_applied = true ∧
      (node_human_intervention s).control.over_budget_accepted =
        s.control.over_budget_accepted) ∧
    (s.control.user_choice = "reject" →
      (node_human_intervention s).status = "terminated" ∧
      human_intervention_router (node_human_intervention s) = END) := by
  refine ⟨?_, ?_, ?_⟩ <;> intro hchoice <;>
    simp [node_human_intervention, human_intervention_router, hca, hint, hconf, hchoice]

/-- C5 witness: the three decision branches at concrete states. -/
theorem human_decision_transform_witness :
    (node_human_intervention exAccept).status = "planning" ∧
    (node_human_intervention exKeep).status = "planning" ∧
    (node_human_intervention exReject).status = "terminated" :=
  ⟨((human_decision_transform exAccept exCa rfl (by norm_num [exCa]) rfl rfl).1 rfl).2.1,
   ((human_decision_transform exKeep exCa rfl (by norm_num [exCa]) rfl rfl).2.1 rfl).2.1,
   ((human_decision_transform exReject exCa rfl (by norm_num [exCa]) rfl rfl).2.2 rfl).1⟩

/-- C7: each fan-out branch node writes only its own state key (the other
two keys are absent from its patch), every completion order of the three
branches merges to the same state, and that merged state carries all three
branch results. -/
theorem parallel_branch_patches_disjoint_and_commute
    (s st : TravelState) (rof : Except String FlightInfo)
    (roh : Except String HotelInfo) (roa : Except String AttractionsInfo) :
    (node_query_flights st rof).hotel_info = none ∧
    (node_query_flights st rof).attractions_info = none ∧
    (node_query_hotels st roh).flight_info = none ∧
    (node_query_hotels st roh).attractions_info = none ∧
    (node_query_attractions st roa).flight_info = none ∧
    (node_query_attractions st roa).hotel_info = none ∧
    (node_query_flights st rof).flight_info.isSome = true ∧
    (node_query_hotels st roh).hotel_info.isSome = true ∧
    (node_query_attractions st roa).attractions_info.isSome = true ∧
    (∀ l ∈ ([[node_query_flights st rof, node_query_hotels st roh, node_query_attractions st roa],
             [node_query_flights st rof, node_query_attractions st roa, node_query_hotels st roh],
             [node_query_hotels st roh, node_query_flights st rof, node_query_attractions st roa],
             [node_query_hotels st roh, node_query_attractions st roa, node_query_flights st rof],
             [node_query_attractions st roa, node_query_flights st rof, node_query_hotels st roh],
             [node_query_attractions st roa, node_query_hotels st roh, node_query_flights st rof]] :
            List (List QueryPatch)),
      applyPatches s l =
        applyPatches s
          [node_query_flights st rof, node_query_hotels st roh, node_query_attractions st roa]) ∧
    ((applyPatches s
        [node_query_flights st rof, node_query_hotels st roh,
         node_query_attractions st roa]).flight_info =
        (node_query_flights st rof).flight_info ∧
     (applyPatches s
        [node_query_flights st rof, node_query_hotels st roh,
         node_query_attractions st roa]).hotel_info =
        (node_query_hotels st roh).hotel_info ∧
     (applyPatches s
        [node_query_flights st rof, node_query_hotels st roh,
         node_query_attractions st roa]).attractions_info =
        (node_query_attractions st roa).attractions_info) := by
  rcases rof with rf | ef <;> rcases roh with rh | eh <;> rcases roa with ra | ea <;>
    refine ⟨rfl, rfl, rfl, rfl, rfl, rfl, rfl, rfl, rfl, ?_, rfl, rfl, rfl⟩ <;>
    · intro l hl
      simp only [List.mem_cons, List.not_mem_nil, or_false] at hl
      rcases hl with rfl | rfl | rfl | rfl | rfl | rfl <;> rfl

/-- C7 witness: a shuffled completion order of concrete patches merges to
the canonical state. -/
theorem parallel_branch_patches_disjoint_and_commute_witness :
    applyPatches {}
        [node_query_attractions {} (.ok {}), node_query_flights {} (.ok {}),
         node_query_hotels {} (.ok {})] =
      applyPatches {}
        [node_query_flights {} (.ok {}), node_query_hotels {} (.ok {}),
         node_query_attractions {} (.ok {})] :=
  ((parallel_branch_patches_disjoint_and_commute {} {} (.ok {}) (.ok {})
      (.ok {})).2.2.2.2.2.2.2.2.2.1 _ (by simp))

/-- C8: an exception inside a fan-out branch handler is caught and turned
into an isolated error patch carrying only that branch's key (so nothing
propagates and sibling keys are untouched), and the join node still
executes over the merged state, exposing the error record alongside the
sibling results. -/
theorem branch_exception_isolated (st s : TravelState) (ef eh ea : String)
    (rh : HotelInfo) (ra : AttractionsInfo) :
    node_query_flights st (.error ef) =
      { flight_info := some { price := 0, error := some ef } } ∧
    node_query_hotels st (.error eh) =
      { hotel_info := some { total_price := 0, error := some eh } } ∧
    node_query_attractions st (.error ea) =
      { attractions_info := some { attractions := [], error := some ea } } ∧
    (node_aggregate_parallel_results
        (applyPatches s
          [node_query_flights st (.error ef), node_query_hotels st (.ok rh),
           node_query_attractions st (.ok ra)])).query_results =
      some { flight := { price := 0, error := some ef }, hotel := rh, attractions := ra } :=
  ⟨rfl, rfl, rfl, rfl⟩

/-- C9: a checkpoint write failure is non-fatal: when the underlying
insert raises, `save_travel_state` returns `False` with the table
unchanged instead of propagating, and `save_state` still returns normally
with the step counter advanced (the run continues, only durability for
that step is lost); the counter advances on every call regardless of the
write outcome. -/
theorem checkpoint_failure_nonfatal (e : String) (db : TravelDB)
    (sid node_name : String) (st : TravelState) (n : ℕ)
    (p : PersistentTravelPlanner) :
    save_travel_state (some e) db sid st n node_name = (db, false) ∧
    save_state (some e) p db st node_name =
      ({ p with step_counter := p.step_counter + 1 }, db) ∧
    (∀ exc : Option String,
      (save_state exc p db st node_name).1 =
        { p with step_counter := p.step_counter + 1 }) := by
  refine ⟨rfl, rfl, ?_⟩
  intro exc
  cases exc <;> rfl

/-- `adjustTravelers` never lowers the sampled price. -/
lemma le_adjustTravelers (p : ℕ) (family3 party45 : Bool) :
    p ≤ adjustTravelers p family3 party45 := by
  unfold adjustTravelers
  split_ifs with h1 h2
  · rw [Nat.le_div_iff_mul_le (by norm_num)]
    omega
  · rw [Nat.le_div_iff_mul_le (by norm_num)]
    omega
  · exact le_rfl

/-- `adjustRequirements` never lowers the price. -/
lemma le_adjustRequirements (reqs : List ReqKind) :
    ∀ p : ℕ, p ≤ adjustRequirements p reqs := by
  induction reqs with
  | nil => intro p; exact le_rfl
  | cons r rest ih =>
      intro p
      cases r with
      | fivestar => simpa [adjustRequirements] using Nat.le_mul_of_pos_left p (by norm_num)
      | luxury =>
          simp only [adjustRequirements]
          calc p ≤ 2 * p := by omega
            _ ≤ adjustRequirements (2 * p) rest := ih (2 * p)
      | plain =>
          simp only [adjustRequirements]
          exact ih p

/-- C10: `query_hotel_prices` always returns `nights = days - 1` and
`total_price = price_per_night * (days - 1)`; hence a 1-day trip yields a
hotel total price of 0, and days = 0 with a positive sampled base price
yields a negative total price. -/
theorem hotel_price_nights_days_minus_one (destination : String) (days : ℤ)
    (base : ℕ) (family3 party45 : Bool) (reqs : List ReqKind) (recommended : String) :
    (query_hotel_prices destination days base family3 party45 reqs recommended).nights =
      days - 1 ∧
    (query_hotel_prices destination days base family3 party45 reqs recommended).total_price =
      (query_hotel_prices destination days base family3 party45 reqs
          recommended).price_per_night * (days - 1) ∧
    (days = 1 →
      (query_hotel_prices destination days base family3 party45 reqs
          recommended).total_price = 0) ∧
    (days = 0 → 1 ≤ base →
      (query_hotel_prices destination days base family3 party45 reqs
          recommended).total_price < 0) := by
  refine ⟨rfl, rfl, ?_, ?_⟩
  · intro h
    subst h
    simp [query_hotel_prices]
  · intro h hb
    subst h
    have h1 : base ≤ adjustTravelers base family3 party45 :=
      le_adjustTravelers base family3 party45
    have h2 : adjustTravelers base family3 party45 ≤
        adjustRequirements (adjustTravelers base family3 party45) reqs :=
      le_adjustRequirements reqs _
    simp only [query_hotel_prices]
    have hpos : 1 ≤ adjustRequirements (adjustTravelers base family3 party45) reqs := by
      omega
    have : (0 : ℤ) <
        (adjustRequirements (adjustTravelers base family3 party45) reqs : ℤ) := by
      exact_mod_cast hpos
    nlinarith

/-- C10 witness: a one-day trip prices 0 nights at 0, a zero-day request
goes negative. -/
theorem hotel_price_nights_days_minus_one_witness :
    (query_hotel_prices "云南" 1 500 false false [] "丽江古城客栈").total_price = 0 ∧
    (query_hotel_prices "云南" 0 500 false false [] "丽江古城客栈").total_price < 0 :=
  ⟨(hotel_price_nights_days_minus_one "云南" 1 500 false false [] "丽江古城客栈").2.2.1 rfl,
   (hotel_price_nights_days_minus_one "云南" 0 500 false false [] "丽江古城客栈").2.2.2 rfl
     (by norm_num)⟩

/-- Soundness of the `pickLatest` fold: the selected row (when any) comes
from the scanned rows or the accumulator and its step number dominates
both. -/
lemma foldl_pickLatest_spec (l : List StateRecord) :
    ∀ acc : Option StateRecord,
      (l.foldl pickLatest acc = none → l = [] ∧ acc = none) ∧
      (∀ c, l.foldl pickLatest acc = some c →
        (c ∈ l ∨ acc = some c) ∧
        (∀ r ∈ l, r.step_number ≤ c.step_number) ∧
        (∀ b, acc = some b → b.step_number ≤ c.step_number)) := by
  induction l with
  | nil =>
      intro acc
      refine ⟨fun h => ⟨rfl, h⟩, fun c hc => ?_⟩
      simp only [List.foldl_nil] at hc
      refine ⟨Or.inr hc, by simp, fun b hb => ?_⟩
      rw [hb] at hc
      cases hc
      exact le_rfl
  | cons r rs ih =>
      intro acc
      have hx : ∃ x, pickLatest acc r = some x ∧ (x = r ∨ acc = some x) ∧
          r.step_number ≤ x.step_number ∧
          (∀ b, acc = some b → b.step_number ≤ x.step_number) := by
        cases acc with
        | none => exact ⟨r, rfl, Or.inl rfl, le_rfl, by simp⟩
        | some b =>
            simp only [pickLatest]
            split_ifs with hle
            · exact ⟨r, rfl, Or.inl rfl, le_rfl, fun b' hb' => by cases hb'; exact hle⟩
            · exact ⟨b, rfl, Or.inr rfl, by omega, fun b' hb' => by cases hb'; exact le_rfl⟩
      obtain ⟨x, hx1, hx2, hx3, hx4⟩ := hx
      constructor
      · intro h
        simp only [List.foldl_cons] at h
        obtain ⟨-, h2⟩ := (ih (pickLatest acc r)).1 h
        rw [hx1] at h2
        cases h2
      · intro c hc
        simp only [List.foldl_cons] at hc
        obtain ⟨hmem, hub, hacc⟩ := (ih (pickLatest acc r)).2 c hc
        have hxc : x.step_number ≤ c.step_number := hacc x hx1
        refine ⟨?_, ?_, ?_⟩
        · rcases hmem with h | h
          · exact Or.inl (List.mem_cons_of_mem _ h)
          · rw [hx1] at h
            injection h with h
            subst h
            rcases hx2 with h2 | h2
            · subst h2
              exact Or.inl (List.mem_cons_self _ _)
            · exact Or.inr h2
        · intro r' hr'
          rcases List.mem_cons.mp hr' with h | h
          · subst h
            exact le_trans hx3 hxc
          · exact hub r' h
        · intro b hb
          exact le_trans (hx4 b hb) hxc

/-- A run of exception-free `save_state` calls: the step counter advances
by one per call, the persisted step numbers extend the table by the
consecutive range starting right after the initial counter, and every new
row belongs to the planner's session. -/
lemma runSaves_ok (calls : List (TravelState × String)) :
    ∀ (p : PersistentTravelPlanner) (db : TravelDB),
      ((runSaves p db (calls.map fun c => ((none : Option String), c))).1.step_counter =
        p.step_counter + calls.length) ∧
      ((runSaves p db (calls.map fun c => ((none : Option String), c))).1.session_id =
        p.session_id) ∧
      ((runSaves p db (calls.map fun c => ((none : Option String), c))).2.map
          StateRecord.step_number =
        db.map StateRecord.step_number ++
          List.range' (p.step_counter + 1) calls.length) ∧
      (∀ r ∈ (runSaves p db (calls.map fun c => ((none : Option String), c))).2,
        r ∈ db ∨ r.session_id = p.session_id) := by
  induction calls with
  | nil =>
      intro p db
      refine ⟨by simp [runSaves], by simp [runSaves], by simp [runSaves], ?_⟩
      intro r hr
      simp only [List.map_nil, runSaves, List.foldl_nil] at hr
      exact Or.inl hr
  | cons c cs ih =>
      intro p db
      have hstep :
          runSaves p db ((c :: cs).map fun c => ((none : Option String), c)) =
            runSaves { p with step_counter := p.step_counter + 1 }
              (db ++ [⟨p.session_id, p.step_counter + 1, c.2, serializeState c.1⟩])
              (cs.map fun c => ((none : Option String), c)) := by
        simp [runSaves, save_state, save_travel_state]
      obtain ⟨ih1, ih2, ih3, ih4⟩ := ih { p with step_counter := p.step_counter + 1 }
        (db ++ [⟨p.session_id, p.step_counter + 1, c.2, serializeState c.1⟩])
      rw [hstep]
      refine ⟨?_, ?_, ?_, ?_⟩
      · rw [ih1]
        simp only [List.length_cons]
        omega
      · exact ih2
      · rw [ih3]
        simp [List.range'_succ, List.append_assoc]
      · intro r hr
        rcases ih4 r hr with h | h
        · rcases List.mem_append.mp h with h' | h'
          · exact Or.inl h'
          · right
            rcases List.mem_singleton.mp h' with rfl
            rfl
        · exact Or.inr h

/-- C3: with a fresh planner and no write failures, the persisted step
numbers of a run are exactly 1, 2, ..., n (strictly increasing, no gaps:
each record's step number is one greater than the previous record's), and
resuming the session restores the step counter from the record with the
highest step number, namely n. -/
theorem checkpoint_steps_strictly_increasing (sid : String)
    (calls : List (TravelState × String)) :
    ((runSaves ⟨sid, 0⟩ [] (calls.map fun c => ((none : Option String), c))).2.map
        StateRecord.step_number = List.range' 1 calls.length) ∧
    (calls ≠ [] →
      (resume_session
          (runSaves ⟨sid, 0⟩ [] (calls.map fun c => ((none : Option String), c))).2
          sid).1.step_counter = calls.length) := by
  obtain ⟨-, -, h3, h4⟩ := runSaves_ok calls ⟨sid, 0⟩ []
  simp only [List.map_nil, List.nil_append] at h3
  constructor
  · exact h3
  · intro hne
    have hn : 1 ≤ calls.length := by
      cases calls with
      | nil => exact absurd rfl hne
      | cons a l => simp
    set db := (runSaves ⟨sid, 0⟩ []
      (calls.map fun c => ((none : Option String), c))).2 with hdb
    have hsess : ∀ r ∈ db, r.session_id = sid := by
      intro r hr
      rcases h4 r hr with h | h
      · cases h
      · exact h
    have hfilter : db.filter (fun r => r.session_id = sid) = db :=
      List.filter_eq_self.2 (fun a ha => by simp [hsess a ha])
    cases hfold : db.foldl pickLatest none with
    | none =>
        obtain ⟨hnil, -⟩ := (foldl_pickLatest_spec db none).1 hfold
        rw [hnil] at h3
        simp only [List.map_nil] at h3
        have : calls.length = 0 := by
          by_contra hlen
          have : calls.length = (calls.length - 1) + 1 := by omega
          rw [this, List.range'_succ] at h3
          exact (List.cons_ne_nil _ _) h3.symm
        omega
    | some c =>
        obtain ⟨hmem, hub, -⟩ := (foldl_pickLatest_spec db none).2 c hfold
        have hcmem : c ∈ db := by
          rcases hmem with h | h
          · exact h
          · cases h
        have hcstep : c.step_number ∈ List.range' 1 calls.length := by
          rw [← h3]
          exact List.mem_map_of_mem _ hcmem
        have hcle : c.step_number ≤ calls.length := by
          rcases List.mem_range'_1.mp hcstep with ⟨-, h⟩
          omega
        have hlast : ∃ r ∈ db, r.step_number = calls.length := by
          have : calls.length ∈ db.map StateRecord.step_number := by
            rw [h3]
            exact List.mem_range'_1.mpr ⟨hn, by omega⟩
          rcases List.mem_map.mp this with ⟨r, hr, hr'⟩
          exact ⟨r, hr, hr'⟩
        obtain ⟨r, hr, hrstep⟩ := hlast
        have : calls.length ≤ c.step_number := hrstep ▸ hub r hr
        have hceq : c.step_number = calls.length := by omega
        simp [resume_session, get_latest_state, hfilter, hfold, hceq]

/-- C3 witness: two successful saves of a fresh session persist step
numbers [1, 2] and resume restores the counter to 2. -/
theorem checkpoint_steps_strictly_increasing_witness :
    ((runSaves ⟨"travel_w", 0⟩ []
        ([({ status := "planning" }, "step_1"), ({ status := "planning" }, "step_2")].map
          fun c => ((none : Option String), c))).2.map StateRecord.step_number =
      List.range' 1 2) ∧
    (resume_session
        (runSaves ⟨"travel_w", 0⟩ []
          ([({ status := "planning" }, "step_1"),
            ({ status := "planning" }, "step_2")].map
            fun c => ((none : Option String), c))).2 "travel_w").1.step_counter = 2 :=
  ⟨(checkpoint_steps_strictly_increasing "travel_w"
      [({ status := "planning" }, "step_1"), ({ status := "planning" }, "step_2")]).1,
   (checkpoint_steps_strictly_increasing "travel_w"
      [({ status := "planning" }, "step_1"), ({ status := "planning" }, "step_2")]).2
     (by simp)⟩

/-- Serialize-then-restore is the identity on human/AI messages. -/
lemma restore_serialize (msgs : List PyMessage)
    (h : ∀ m ∈ msgs, isChatMessage m) :
    (msgs.map serializeMessage).filterMap restoreMessage = msgs := by
  induction msgs with
  | nil => simp
  | cons m ms ih =>
      have hm := h m (List.mem_cons_self _ _)
      have hms := ih fun x hx => h x (List.mem_cons_of_mem _ hx)
      cases m with
      | human c => simp [serializeMessage, restoreMessage, hms]
      | ai c => simp [serializeMessage, restoreMessage, hms]
      | other cls c => exact absurd hm (by simp [isChatMessage])

/-- C4: `resume_session` is `none` exactly on sessions without stored
rows; otherwise it returns a planner whose step counter equals the step
number of a stored row of that session that dominates every other row's
step number, together with the reconstruction of that row's snapshot; and
reconstruction inverts serialization on states whose messages are all
human/AI message objects. -/
theorem resume_loads_latest (db : TravelDB) (sid : String) :
    (db.filter (fun r => r.session_id = sid) = [] →
      resume_session db sid = (⟨sid, 0⟩, none)) ∧
    (∀ (p : PersistentTravelPlanner) (st : TravelState),
      resume_session db sid = (p, some st) →
      ∃ r ∈ db, r.session_id = sid ∧
        p.session_id = sid ∧ p.step_counter = r.step_number ∧
        st = restoreState r.state_data ∧
        ∀ r' ∈ db, r'.session_id = sid → r'.step_number ≤ r.step_number) ∧
    (∀ s : TravelState, (∀ m ∈ s.messages, isChatMessage m) →
      restoreState (serializeState s) = s) := by
  refine ⟨?_, ?_, ?_⟩
  · intro hfil
    simp [resume_session, get_latest_state, hfil]
  · intro p st h
    simp only [resume_session] at h
    cases hg : get_latest_state db sid with
    | none => rw [hg] at h; cases h
    | some info =>
        rw [hg] at h
        obtain ⟨hp, hst⟩ := Prod.mk.injEq .. ▸ h
        injection hst with hst
        simp only [get_latest_state, Option.map_eq_some'] at hg
        obtain ⟨c, hc, hinfo⟩ := hg
        obtain ⟨hmem, hub, -⟩ :=
          (foldl_pickLatest_spec (db.filter (fun r => r.session_id = sid)) none).2 c hc
        have hcfil : c ∈ db.filter (fun r => r.session_id = sid) := by
          rcases hmem with h' | h'
          · exact h'
          · cases h'
        have hcdb : c ∈ db := List.mem_of_mem_filter hcfil
        have hcsid : c.session_id = sid := by
          have := List.of_mem_filter hcfil
          simpa using this
        refine ⟨c, hcdb, hcsid, ?_, ?_, ?_, ?_⟩
        · rw [← hp]
        · rw [← hp, ← hinfo]
        · rw [← hst, ← hinfo]
        · intro r' hr' hr'sid
          exact hub r' (List.mem_filter.mpr ⟨hr', by simp [hr'sid]⟩)
  · intro s hs
    simp [restoreState, serializeState, restore_serialize s.messages hs]

/-- C4 witness: the empty-session case, the latest-row case on a concrete
two-row table, and the serialization roundtrip on a concrete state. -/
theorem resume_loads_latest_witness :
    resume_session [] "travel_y" = (⟨"travel_y", 0⟩, none) ∧
    (∃ r ∈ exDb, r.session_id = "travel_x" ∧
      (resume_session exDb "travel_x").1.session_id = "travel_x" ∧
      (resume_session exDb "travel_x").1.step_counter = r.step_number ∧
      restoreState (⟨"travel_x", 2, "final_result",
          { status := "completed" }⟩ : StateRecord).state_data =
        restoreState r.state_data ∧
      ∀ r' ∈ exDb, r'.session_id = "travel_x" → r'.step_number ≤ r.step_number) ∧
    restoreState (serializeState exMsgState) = exMsgState := by
  refine ⟨(resume_loads_latest [] "travel_y").1 rfl, ?_, ?_⟩
  · obtain ⟨r, hr, h1, h2, h3, h4, h5⟩ :=
      (resume_loads_latest exDb "travel_x").2.1
        (resume_session exDb "travel_x").1
        (restoreState (⟨"travel_x", 2, "final_result",
          { status := "completed" }⟩ : StateRecord).state_data) rfl
    exact ⟨r, hr, h1, h2, h3, by rw [← h4], h5⟩
  · exact (resume_loads_latest exDb "travel_x").2.2 exMsgState
      (by intro m hm; rcases (by simpa [exMsgState] using hm : m = .human "我想去云南旅游" ∨ m = .ai "好的，正在规划") with rfl | rfl <;> trivial)

end TravelPlanner
